import Mathlib

/-!
Shallow embedding of `wireless-dev-cli` (src/index.ts): the discovery sweep,
the adb listing parser, `enableWirelessDebugging`, and the JSON preference
store, together with proofs of the specification claims.

External processes (`adb devices`, `adb connect`, shell property queries) are
modelled by an environment record `AdbEnv`: each field gives the outcome of
the corresponding `execPromise` call (`none` models the promise rejecting,
`some out` models success with standard output `out`).
-/

namespace WirelessDev

/-! ## JavaScript string primitives, modelled over `List Char` -/

/-- Boolean list-prefix test; models the prefix part of JS string matching. -/
def isPrefixOfB : List Char → List Char → Bool
  | [], _ => true
  | _ :: _, [] => false
  | a :: as, b :: bs => a = b && isPrefixOfB as bs

/-- Boolean list-infix test; models `String.prototype.includes`. -/
def isInfixOfB (needle : List Char) : List Char → Bool
  | [] => isPrefixOfB needle []
  | c :: rest => isPrefixOfB needle (c :: rest) || isInfixOfB needle rest

/-- `id.includes(sub)` from JS. -/
def jsIncludes (id sub : String) : Bool :=
  isInfixOfB sub.data id.data

/-- `id.startsWith(pre)` from JS. -/
def jsStartsWith (id pre : String) : Bool :=
  isPrefixOfB pre.data id.data

/-- `s.split(sep)` for a single-character separator, over char lists.
    Always returns a nonempty list, as in JS. -/
def splitChar (sep : Char) : List Char → List (List Char)
  | [] => [[]]
  | c :: cs =>
    let r := splitChar sep cs
    if c = sep then [] :: r
    else
      match r with
      | h :: t => (c :: h) :: t
      | [] => [[c]]

/-- `s.trim()` from JS (whitespace stripped from both ends). -/
def jsTrim (s : String) : String :=
  ⟨((s.data.dropWhile Char.isWhitespace).reverse.dropWhile Char.isWhitespace).reverse⟩

/-- JS `parseInt` on an already-sign-and-digit-leading string: optional sign,
    then leading decimal digits; `none` models `NaN`. -/
def parseIntJS (s : String) : Option Int :=
  let cs := s.data.dropWhile Char.isWhitespace
  let signAndRest : Int × List Char :=
    match cs with
    | '-' :: rest => (-1, rest)
    | '+' :: rest => (1, rest)
    | _ => (1, cs)
  let digits := signAndRest.2.takeWhile Char.isDigit
  if digits.isEmpty then none
  else some (signAndRest.1 * (digits.foldl (fun acc c => acc * 10 + (c.toNat - 48)) 0 : Nat))

/-! ## Data model (interfaces from src/index.ts) -/

/-- `DeviceInfo` from src/index.ts: optional fields model the `?:` TS fields,
    which stay `undefined` (`none`) when a property query fails. -/
structure DeviceInfo where
  id : String
  status : String
  model : Option String := none
  androidVersion : Option String := none
  manufacturer : Option String := none
  wireless : Option Bool := none
deriving Repr, DecidableEq

/-- `DiscoveredDevice` from src/index.ts. -/
structure DiscoveredDevice where
  ip : String
  status : String
deriving Repr, DecidableEq

/-- `KnownDevice` from src/index.ts. -/
structure KnownDevice where
  id : String
  ip : String
  model : String
  lastConnected : String
deriving Repr, DecidableEq

/-- `ConfigType` from src/index.ts; `knownDevices` is optional. -/
structure ConfigType where
  knownDevices : Option (List KnownDevice) := none
deriving Repr, DecidableEq

/-- Outcomes of the external `adb`/shell process invocations the program
    makes. `none` models the call rejecting (non-zero exit, timeout,
    missing executable); `some out` success with stdout `out`. -/
structure AdbEnv where
  /-- stdout of `adb devices`; `none` when the invocation fails. -/
  adbDevicesOut : Option String
  /-- stdout of `adb -s <id> shell getprop <key>`. -/
  getprop : String → String → Option String
  /-- stdout of the Android-11+ Wi-Fi IP query (`ip route | grep wlan0 ...`). -/
  shellIpRoute : String → Option String
  /-- stdout of the legacy Wi-Fi IP query (`ip addr show wlan0 ...`). -/
  shellIpAddr : String → Option String
  /-- whether `adb -s <id> tcpip 5555` succeeds. -/
  tcpipOk : String → Bool
  /-- whether `adb connect <ip>:5555` resolves within its 500ms timeout. -/
  connectOk : String → Bool
  /-- `new Date().toISOString()` at the time of the run. -/
  now : String

/-! ## getConnectedDevices (src/index.ts lines 76-114) -/

/-- The regex match `line.match(/^(\S+)\s+(\S+)/)`: a maximal nonempty run of
    non-whitespace, at least one whitespace character, then a nonempty run of
    non-whitespace; yields the two captured tokens. -/
def matchDeviceLine (line : List Char) : Option (String × String) :=
  let t1 := line.takeWhile (fun c => !c.isWhitespace)
  let rest1 := line.drop t1.length
  let sp := rest1.takeWhile Char.isWhitespace
  let rest2 := rest1.drop sp.length
  let t2 := rest2.takeWhile (fun c => !c.isWhitespace)
  if t1.isEmpty || sp.isEmpty || t2.isEmpty then none
  else some (⟨t1⟩, ⟨t2⟩)

/-- The per-device enrichment inside `getConnectedDevices`: when status is
    `device`, query model, Android version and manufacturer in order; a
    failing query aborts the inner `try`, leaving the later fields unset.
    `wireless` is set only after all three succeed, to `id.includes(':')`. -/
def mkDeviceInfo (env : AdbEnv) (id status : String) : DeviceInfo :=
  let base : DeviceInfo := { id := id, status := status }
  if status = "device" then
    match env.getprop id "ro.product.model" with
    | none => base
    | some m =>
      let d1 := { base with model := some (jsTrim m) }
      match env.getprop id "ro.build.version.release" with
      | none => d1
      | some v =>
        let d2 := { d1 with androidVersion := some (jsTrim v) }
        match env.getprop id "ro.product.manufacturer" with
        | none => d2
        | some mf =>
          { d2 with manufacturer := some (jsTrim mf),
                    wireless := some (id.data.contains ':') }
  else base

/-- `getConnectedDevices`: on listing failure the catch block logs and
    returns `[]`; otherwise split stdout on newlines, drop the header line,
    and parse each line that matches the device regex. -/
def getConnectedDevices (env : AdbEnv) : List DeviceInfo :=
  match env.adbDevicesOut with
  | none => []
  | some stdout =>
    ((splitChar '\n' stdout.data).drop 1).filterMap fun line =>
      (matchDeviceLine line).map fun p => mkDeviceInfo env p.1 p.2

/-! ## discoverDevices (src/index.ts lines 116-158) -/

/-- `localIp.substring(0, localIp.lastIndexOf('.') + 1)`: the prefix up to and
    including the last dot, or `""` when there is no dot. -/
def ipBase (localIp : String) : String :=
  ⟨(localIp.data.reverse.dropWhile (fun c => c ≠ '.')).reverse⟩

/-- The candidate address for loop index `i`: `` `${ipBase}${i}` ``. -/
def candIp (localIp : String) (i : Nat) : String :=
  ipBase localIp ++ Nat.repr i

/-- `connectedDevices.some(device => device.id.includes(ip) ||
    device.id.startsWith(ip))`, with the listing re-queried as in the loop
    body. -/
def isAlreadyConnected (env : AdbEnv) (ip : String) : Bool :=
  (getConnectedDevices env).any fun d => jsIncludes d.id ip || jsStartsWith d.id ip

/-- One iteration of the sweep loop: the entry (if any) that candidate `i`
    contributes to `discoveredDevices`. A `connected` entry is pushed
    synchronously; a probe pushes `discoverable` when `adb connect` resolves
    and nothing when it rejects (the empty `.catch`). -/
def sweepEntry (env : AdbEnv) (localIp : String) (i : Nat) : Option DiscoveredDevice :=
  if isAlreadyConnected env (candIp localIp i) then some ⟨candIp localIp i, "connected"⟩
  else if candIp localIp i = localIp then none
  else if env.connectOk (candIp localIp i) then some ⟨candIp localIp i, "discoverable"⟩
  else none

/-- `discoverDevices`: iterate `i` from 1 to 254 and aggregate the entries.
    The JS implementation appends probe successes in promise-settlement order
    after `Promise.allSettled`; the membership of the result is
    order-insensitive and is modelled in candidate order. -/
def discoverDevices (env : AdbEnv) (localIp : String) : List DiscoveredDevice :=
  (List.range' 1 254).filterMap (sweepEntry env localIp)

/-- The address probed by candidate `i`, when the loop reaches the
    `adb connect` branch for it (not already connected and not the local
    address). -/
def probeIp (env : AdbEnv) (localIp : String) (i : Nat) : Option String :=
  if isAlreadyConnected env (candIp localIp i) then none
  else if candIp localIp i = localIp then none
  else some (candIp localIp i)

/-- All addresses to which the sweep issues an `adb connect` probe. -/
def probedIps (env : AdbEnv) (localIp : String) : List String :=
  (List.range' 1 254).filterMap (probeIp env localIp)

/-! ## enableWirelessDebugging (src/index.ts lines 169-243) -/

/-- `parseInt(version.trim().split('.')[0])` from src/index.ts line 184. -/
def androidMajor (version : String) : Option Int :=
  parseIntJS ⟨(splitChar '.' (jsTrim version).data).headD []⟩

/-- The guard `androidVersion >= 11`; a `NaN` parse compares false in JS. -/
def versionAtLeast11 (version : String) : Bool :=
  match androidMajor version with
  | some n => decide (11 ≤ n)
  | none => false

/-- Outcome of `enableWirelessDebugging`: the returned boolean, the resulting
    in-memory `config`, and whether `saveConfig()` was invoked. -/
structure EnableResult where
  success : Bool
  config : ConfigType
  saved : Bool
deriving Repr, DecidableEq

/-- `enableWirelessDebugging`: find the device, short-circuit if already
    wireless, parse the Android major version, query the Wi-Fi IP via the
    route table (Android 11+) or the legacy `ip addr` query, and on success
    switch to tcpip mode and append a `KnownDevice` record; an empty trimmed
    IP reports an error and returns `false`. A rejecting `execPromise` is
    caught by the outer `catch`, which also returns `false`. -/
def enableWirelessDebugging (env : AdbEnv) (deviceId : String) (config : ConfigType) :
    EnableResult :=
  match (getConnectedDevices env).find? (fun d => d.id = deviceId) with
  | none => ⟨false, config, false⟩
  | some device =>
    if device.wireless = some true then ⟨true, config, false⟩
    else
      match env.getprop deviceId "ro.build.version.release" with
      | none => ⟨false, config, false⟩
      | some version =>
        if versionAtLeast11 version then
          match env.shellIpRoute deviceId with
          | none => ⟨false, config, false⟩
          | some out =>
            if jsTrim out = "" then ⟨false, config, false⟩
            else if env.tcpipOk deviceId then
              ⟨true,
               ⟨some (config.knownDevices.getD [] ++
                 [⟨deviceId, jsTrim out ++ ":5555", device.model.getD "Unknown", env.now⟩])⟩,
               true⟩
            else ⟨false, config, false⟩
        else
          match env.shellIpAddr deviceId with
          | none => ⟨false, config, false⟩
          | some out =>
            if jsTrim out = "" then ⟨false, config, false⟩
            else if env.tcpipOk deviceId then
              ⟨true,
               ⟨some (config.knownDevices.getD [] ++
                 [⟨deviceId, jsTrim out ++ ":5555", device.model.getD "Unknown", env.now⟩])⟩,
               true⟩
            else ⟨false, config, false⟩

/-! ## Preference store (src/index.ts lines 41-59): JSON model

The file content is modelled at the JSON value level: `JSON.stringify`
produces a `Json` tree and `JSON.parse` either fails (malformed text) or
yields a `Json` tree. String escaping is the JSON library's concern and is
not re-modelled. -/

/-- JSON values. -/
inductive Json where
  | null : Json
  | bool : Bool → Json
  | num : Int → Json
  | str : String → Json
  | arr : List Json → Json
  | obj : List (String × Json) → Json

/-- Property lookup on a JSON object, first match wins. -/
def lookupField : List (String × Json) → String → Option Json
  | [], _ => none
  | (k, v) :: rest, key => if k = key then some v else lookupField rest key

/-- `JSON.stringify` of one `KnownDevice` record. -/
def knownDeviceToJson (d : KnownDevice) : Json :=
  .obj [("id", .str d.id), ("ip", .str d.ip), ("model", .str d.model),
        ("lastConnected", .str d.lastConnected)]

/-- `JSON.stringify(config)`: a `knownDevices` key only when the field is
    defined (JSON.stringify omits `undefined` properties). -/
def configToJson (c : ConfigType) : Json :=
  match c.knownDevices with
  | none => .obj []
  | some l => .obj [("knownDevices", .arr (l.map knownDeviceToJson))]

/-- Reading one record back out of the parsed JSON. -/
def jsonToKnownDevice (j : Json) : Option KnownDevice :=
  match j with
  | .obj fields =>
    match lookupField fields "id", lookupField fields "ip",
          lookupField fields "model", lookupField fields "lastConnected" with
    | some (.str id), some (.str ip), some (.str model), some (.str lc) =>
      some ⟨id, ip, model, lc⟩
    | _, _, _, _ => none
  | _ => none

/-- Interpreting a parsed JSON value as `ConfigType`: the `knownDevices`
    property when present and an array (entries that are not well-formed
    records carry no usable fields and are dropped), `none` otherwise. -/
def jsonToConfig (j : Json) : ConfigType :=
  match j with
  | .obj fields =>
    match lookupField fields "knownDevices" with
    | some (.arr items) => ⟨some (items.filterMap jsonToKnownDevice)⟩
    | _ => ⟨none⟩
  | _ => ⟨none⟩

/-- Loading the preference store at startup (src/index.ts lines 48-55).
    `none`: the file does not exist (the `existsSync` guard fails), so
    `config` keeps its initial `{}`. `some none`: the file exists but
    `JSON.parse` throws; the `catch` logs the error and `config` keeps `{}`.
    `some (some j)`: the file parses to `j`. -/
def loadConfig : Option (Option Json) → ConfigType
  | none => {}
  | some none => {}
  | some (some j) => jsonToConfig j

/-- `saveConfig` writes `JSON.stringify(config, null, 2)` over the file. -/
def saveConfig (c : ConfigType) : Json :=
  configToJson c

/-- The first captured tokens of the lines of a raw `adb devices` listing
    that match the device regex: exactly the identifiers the parser emits. -/
def listingTokens (stdout : String) : List String :=
  ((splitChar '\n' stdout.data).drop 1).filterMap fun line =>
    (matchDeviceLine line).map (·.1)

/-- Decimal value of a digit string; a left inverse of `Nat.repr` used to
    show candidate addresses are pairwise distinct. -/
def digitsVal (cs : List Char) : Nat :=
  cs.foldl (fun a c => a * 10 + (c.toNat - 48)) 0

/-! ## Concrete environments used as witnesses and counterexamples -/

/-- Environment where one wireless device `10.0.0.7:5555` is listed and the
    only probe that resolves is `10.0.0.9`. -/
def envOneConnected : AdbEnv :=
  { adbDevicesOut := some "List of devices attached\n10.0.0.7:5555\tdevice\n"
  , getprop := fun _ _ => some "12"
  , shellIpRoute := fun _ => some "172.16.0.9\n"
  , shellIpAddr := fun _ => some "172.16.0.9"
  , tcpipOk := fun _ => true
  , connectOk := fun ip => ip = "10.0.0.9"
  , now := "2026-01-01T00:00:00.000Z" }

/-- Environment where `adb devices` itself fails (missing or erroring
    bridge executable) while probes would all resolve. -/
def envListingFailure : AdbEnv :=
  { adbDevicesOut := none
  , getprop := fun _ _ => none
  , shellIpRoute := fun _ => none
  , shellIpAddr := fun _ => none
  , tcpipOk := fun _ => false
  , connectOk := fun _ => true
  , now := "2026-01-01T00:00:00.000Z" }

/-- Environment where the machine's own address `10.0.0.5` appears inside a
    listed device identifier. -/
def envSelfConnected : AdbEnv :=
  { adbDevicesOut := some "List of devices attached\n10.0.0.5:5555\tdevice\n"
  , getprop := fun _ _ => some "12"
  , shellIpRoute := fun _ => some ""
  , shellIpAddr := fun _ => some ""
  , tcpipOk := fun _ => false
  , connectOk := fun _ => false
  , now := "2026-01-01T00:00:00.000Z" }

/-- Environment whose raw listing repeats the same identifier on two lines. -/
def envDupListing : AdbEnv :=
  { adbDevicesOut := some "List of devices attached\nfoo\tdevice\nfoo\tdevice\n"
  , getprop := fun _ _ => none
  , shellIpRoute := fun _ => none
  , shellIpAddr := fun _ => none
  , tcpipOk := fun _ => false
  , connectOk := fun _ => false
  , now := "2026-01-01T00:00:00.000Z" }

/-- Environment with a single USB device `ABC123` on Android 12 whose Wi-Fi
    route query returns only whitespace (Wi-Fi disabled). -/
def envUsbNoWifi : AdbEnv :=
  { adbDevicesOut := some "List of devices attached\nABC123\tdevice\n"
  , getprop := fun _ _ => some "12"
  , shellIpRoute := fun _ => some "\n"
  , shellIpAddr := fun _ => some ""
  , tcpipOk := fun _ => true
  , connectOk := fun _ => false
  , now := "2026-01-01T00:00:00.000Z" }

/-! ## Helper lemmas -/

theorem isInfixOfB_of_isPrefixOfB {n h : List Char} (hp : isPrefixOfB n h = true) :
    isInfixOfB n h = true := by
  cases h with
  | nil => simpa [isInfixOfB] using hp
  | cons c rest => simp [isInfixOfB, hp]

theorem jsIncludes_of_jsStartsWith {id pre : String} (h : jsStartsWith id pre = true) :
    jsIncludes id pre = true :=
  isInfixOfB_of_isPrefixOfB h

set_option maxRecDepth 4000 in
theorem digitsVal_repr_range : ∀ i ∈ List.range' 1 254, digitsVal (Nat.repr i).data = i := by
  decide

theorem candIp_inj {localIp : String} {i j : Nat}
    (hi : i ∈ List.range' 1 254) (hj : j ∈ List.range' 1 254)
    (h : candIp localIp i = candIp localIp j) : i = j := by
  have hdata : (ipBase localIp).data ++ (Nat.repr i).data
      = (ipBase localIp).data ++ (Nat.repr j).data := congrArg String.data h
  have hrepr : (Nat.repr i).data = (Nat.repr j).data := List.append_cancel_left hdata
  calc i = digitsVal (Nat.repr i).data := (digitsVal_repr_range i hi).symm
    _ = digitsVal (Nat.repr j).data := congrArg digitsVal hrepr
    _ = j := digitsVal_repr_range j hj

theorem mem_discoverDevices {env : AdbEnv} {localIp : String} {d : DiscoveredDevice} :
    d ∈ discoverDevices env localIp ↔
      ∃ i ∈ List.range' 1 254, sweepEntry env localIp i = some d := by
  simp [discoverDevices, List.mem_filterMap]

theorem mem_probedIps {env : AdbEnv} {localIp : String} {ip : String} :
    ip ∈ probedIps env localIp ↔
      ∃ i ∈ List.range' 1 254, probeIp env localIp i = some ip := by
  simp [probedIps, List.mem_filterMap]

theorem probeIp_some {env : AdbEnv} {localIp ip : String} {i : Nat}
    (h : probeIp env localIp i = some ip) :
    candIp localIp i = ip ∧ isAlreadyConnected env ip = false ∧ ip ≠ localIp := by
  unfold probeIp at h
  split_ifs at h with h1 h2
  have hip : candIp localIp i = ip := Option.some.inj h
  subst hip
  exact ⟨rfl, by simpa using h1, h2⟩

theorem sweepEntry_some {env : AdbEnv} {localIp : String} {i : Nat} {d : DiscoveredDevice}
    (h : sweepEntry env localIp i = some d) :
    d.ip = candIp localIp i ∧
      ((isAlreadyConnected env d.ip = true ∧ d.status = "connected") ∨
        (isAlreadyConnected env d.ip = false ∧ d.ip ≠ localIp ∧
          env.connectOk d.ip = true ∧ d.status = "discoverable")) := by
  unfold sweepEntry at h
  split_ifs at h with h1 h2 h3
  · have hd : (⟨candIp localIp i, "connected"⟩ : DiscoveredDevice) = d := Option.some.inj h
    subst hd
    exact ⟨rfl, Or.inl ⟨h1, rfl⟩⟩
  · have hd : (⟨candIp localIp i, "discoverable"⟩ : DiscoveredDevice) = d := Option.some.inj h
    subst hd
    exact ⟨rfl, Or.inr ⟨by simpa using h1, h2, h3, rfl⟩⟩

theorem probeIp_eq_some_of {env : AdbEnv} {localIp : String} {i : Nat}
    (h1 : isAlreadyConnected env (candIp localIp i) = false)
    (h2 : candIp localIp i ≠ localIp) :
    probeIp env localIp i = some (candIp localIp i) := by
  unfold probeIp
  rw [if_neg (by simp [h1]), if_neg h2]

/-! ## Claims -/

/-- C2: for every subnet prefix and local address, the discovery sweep never
    issues an `adb connect` probe to the local address itself, across all 254
    candidate last-octet values. -/
theorem claim2_never_probes_self (env : AdbEnv) (localIp : String) :
    localIp ∉ probedIps env localIp := by
  intro hmem
  rw [mem_probedIps] at hmem
  obtain ⟨i, _, hpi⟩ := hmem
  exact (probeIp_some hpi).2.2 rfl

/-- C2 witness: the sweep over `10.0.0.0/24` from local address `10.0.0.5`
    never probes `10.0.0.5`. -/
theorem claim2_never_probes_self_witness :
    "10.0.0.5" ∉ probedIps envOneConnected "10.0.0.5" :=
  claim2_never_probes_self envOneConnected "10.0.0.5"

/-- C10: the self-address exclusion guards only the probe branch: when the
    local address is a candidate and appears as a substring of a listed
    device identifier, the sweep still records the local address itself with
    status `connected`. -/
theorem claim10_self_connected_classification (env : AdbEnv) (localIp : String) (i : Nat)
    (hi : i ∈ List.range' 1 254) (heq : candIp localIp i = localIp)
    (hsub : ∃ dev ∈ getConnectedDevices env, jsIncludes dev.id localIp = true) :
    (⟨localIp, "connected"⟩ : DiscoveredDevice) ∈ discoverDevices env localIp := by
  have hconn : isAlreadyConnected env localIp = true := by
    rw [isAlreadyConnected, List.any_eq_true]
    obtain ⟨dev, hdev, hincl⟩ := hsub
    exact ⟨dev, hdev, by rw [Bool.or_eq_true]; exact Or.inl hincl⟩
  rw [mem_discoverDevices]
  refine ⟨i, hi, ?_⟩
  unfold sweepEntry
  rw [heq, if_pos hconn]

/-- C10 witness: with local address `10.0.0.5` and device `10.0.0.5:5555`
    listed, the sweep records `10.0.0.5` as connected. -/
theorem claim10_self_connected_classification_witness :
    (⟨"10.0.0.5", "connected"⟩ : DiscoveredDevice) ∈
      discoverDevices envSelfConnected "10.0.0.5" :=
  claim10_self_connected_classification envSelfConnected "10.0.0.5" 5 (by decide)
    (by decide)
    ⟨mkDeviceInfo envSelfConnected "10.0.0.5:5555" "device", by decide, by decide⟩

/-- C1: a candidate address that is a substring (or prefix) of some listed
    device identifier is recorded with status `connected` and is never
    probed; conversely every result entry with status `connected` has its
    address contained in some listed device identifier. -/
theorem claim1_connected_classification (env : AdbEnv) (localIp : String) :
    (∀ i ∈ List.range' 1 254,
        (∃ dev ∈ getConnectedDevices env,
            (jsIncludes dev.id (candIp localIp i) ||
              jsStartsWith dev.id (candIp localIp i)) = true) →
          (⟨candIp localIp i, "connected"⟩ : DiscoveredDevice) ∈ discoverDevices env localIp ∧
            candIp localIp i ∉ probedIps env localIp) ∧
      (∀ d ∈ discoverDevices env localIp, d.status = "connected" →
          ∃ dev ∈ getConnectedDevices env, jsIncludes dev.id d.ip = true) := by
  constructor
  · intro i hi hsub
    have hconn : isAlreadyConnected env (candIp localIp i) = true := by
      rw [isAlreadyConnected, List.any_eq_true]
      obtain ⟨dev, hdev, hm⟩ := hsub
      exact ⟨dev, hdev, hm⟩
    constructor
    · rw [mem_discoverDevices]
      refine ⟨i, hi, ?_⟩
      unfold sweepEntry
      rw [if_pos hconn]
    · intro hmem
      rw [mem_probedIps] at hmem
      obtain ⟨j, _, hpj⟩ := hmem
      obtain ⟨-, hfalse, -⟩ := probeIp_some hpj
      rw [hconn] at hfalse
      simp at hfalse
  · intro d hd hstatus
    rw [mem_discoverDevices] at hd
    obtain ⟨i, _, hse⟩ := hd
    obtain ⟨-, hcase⟩ := sweepEntry_some hse
    rcases hcase with ⟨hconn, -⟩ | ⟨-, -, -, hdisc⟩
    · rw [isAlreadyConnected, List.any_eq_true] at hconn
      obtain ⟨dev, hdev, hmatch⟩ := hconn
      rw [Bool.or_eq_true] at hmatch
      refine ⟨dev, hdev, ?_⟩
      rcases hmatch with h | h
      · exact h
      · exact jsIncludes_of_jsStartsWith h
    · rw [hstatus] at hdisc
      exact absurd hdisc (by decide)

/-- C1 witness: with device `10.0.0.7:5555` listed, candidate `10.0.0.7` is
    recorded as connected, is not probed, and the converse direction applies
    to that entry. -/
theorem claim1_connected_classification_witness :
    ((⟨"10.0.0.7", "connected"⟩ : DiscoveredDevice) ∈
        discoverDevices envOneConnected "10.0.0.5" ∧
      "10.0.0.7" ∉ probedIps envOneConnected "10.0.0.5") ∧
      ∃ dev ∈ getConnectedDevices envOneConnected,
        jsIncludes dev.id "10.0.0.7" = true := by
  have h := claim1_connected_classification envOneConnected "10.0.0.5"
  have h1 := h.1 7 (by decide)
    ⟨mkDeviceInfo envOneConnected "10.0.0.7:5555" "device", by decide, by decide⟩
  exact ⟨h1, h.2 ⟨"10.0.0.7", "connected"⟩ h1.1 rfl⟩

/-- C3 counterexample: when `adb devices` itself fails, `getConnectedDevices`
    swallows the error and returns `[]`, so the sweep does not abort: it
    still issues probes (here `10.0.0.1` is probed) and completes normally
    with discoverable hosts in its result. -/
theorem claim3_listing_failure_counterexample :
    envListingFailure.adbDevicesOut = none ∧
      "10.0.0.1" ∈ probedIps envListingFailure "10.0.0.5" ∧
      (⟨"10.0.0.1", "discoverable"⟩ : DiscoveredDevice) ∈
        discoverDevices envListingFailure "10.0.0.5" := by
  refine ⟨rfl, ?_, ?_⟩ <;> decide

/-- C3 amended: if querying the bridge device listing fails entirely, the
    listing function catches the error and returns the empty device list, and
    the sweep continues rather than aborting: every candidate other than the
    local address is still probed. -/
theorem claim3_listing_failure_amended (env : AdbEnv) (localIp : String)
    (h : env.adbDevicesOut = none) :
    getConnectedDevices env = [] ∧
      ∀ i ∈ List.range' 1 254, candIp localIp i ≠ localIp →
        candIp localIp i ∈ probedIps env localIp := by
  have hdev : getConnectedDevices env = [] := by
    unfold getConnectedDevices
    rw [h]
  refine ⟨hdev, fun i hi hne => ?_⟩
  rw [mem_probedIps]
  refine ⟨i, hi, probeIp_eq_some_of ?_ hne⟩
  rw [isAlreadyConnected, hdev]
  rfl

/-- C3 amended witness: with the listing failing, the listing is empty and
    candidate `10.0.0.1` is probed. -/
theorem claim3_listing_failure_amended_witness :
    getConnectedDevices envListingFailure = [] ∧
      candIp "10.0.0.5" 1 ∈ probedIps envListingFailure "10.0.0.5" := by
  have h := claim3_listing_failure_amended envListingFailure "10.0.0.5" rfl
  exact ⟨h.1, h.2 1 (by decide) (by decide)⟩

/-- C4: the aggregated result accounts for every launched probe
    independently of all others: a probed address contributes a
    `discoverable` entry exactly when its own `adb connect` resolves, and a
    probe that fails or times out leaves no entry at all for that address
    (no per-host error in the result), regardless of how the other 253
    probes fare. The `Promise.allSettled` join is modelled by the result
    being defined only after all 254 candidates are processed. -/
theorem claim4_probe_join (env : AdbEnv) (localIp : String) (ip : String)
    (hp : ip ∈ probedIps env localIp) :
    ((⟨ip, "discoverable"⟩ : DiscoveredDevice) ∈ discoverDevices env localIp ↔
        env.connectOk ip = true) ∧
      (env.connectOk ip = false →
        ∀ s, (⟨ip, s⟩ : DiscoveredDevice) ∉ discoverDevices env localIp) := by
  rw [mem_probedIps] at hp
  obtain ⟨i, hi, hpi⟩ := hp
  obtain ⟨hcand, hnotconn, hnotself⟩ := probeIp_some hpi
  constructor
  · constructor
    · intro hmem
      rw [mem_discoverDevices] at hmem
      obtain ⟨j, _, hse⟩ := hmem
      obtain ⟨hip, hcase⟩ := sweepEntry_some hse
      rcases hcase with ⟨hconn, -⟩ | ⟨-, -, hok, -⟩
      · rw [hconn] at hnotconn
        simp at hnotconn
      · exact hok
    · intro hok
      rw [mem_discoverDevices]
      refine ⟨i, hi, ?_⟩
      unfold sweepEntry
      rw [hcand, if_neg (by simp [hnotconn]), if_neg hnotself, if_pos hok]
  · intro hfail s hmem
    rw [mem_discoverDevices] at hmem
    obtain ⟨j, _, hse⟩ := hmem
    obtain ⟨-, hcase⟩ := sweepEntry_some hse
    rcases hcase with ⟨hconn, -⟩ | ⟨-, -, hok, -⟩
    · rw [hconn] at hnotconn
      simp at hnotconn
    · rw [hok] at hfail
      simp at hfail

/-- C4 witness: `10.0.0.9` is probed; its probe resolves, so it appears as
    discoverable, and the failing probe `10.0.0.1` leaves no entry. -/
theorem claim4_probe_join_witness :
    ((⟨"10.0.0.9", "discoverable"⟩ : DiscoveredDevice) ∈
        discoverDevices envOneConnected "10.0.0.5" ↔
      envOneConnected.connectOk "10.0.0.9" = true) ∧
      (envOneConnected.connectOk "10.0.0.9" = false →
        ∀ s, (⟨"10.0.0.9", s⟩ : DiscoveredDevice) ∉
          discoverDevices envOneConnected "10.0.0.5") :=
  claim4_probe_join envOneConnected "10.0.0.5" "10.0.0.9" (by decide)

theorem sweep_filterMap_ip_nodup (env : AdbEnv) (localIp : String) :
    ∀ l : List Nat, l.Pairwise (fun i j => candIp localIp i ≠ candIp localIp j) →
      ((l.filterMap (sweepEntry env localIp)).map DiscoveredDevice.ip).Nodup := by
  intro l
  induction l with
  | nil => intro _; simp
  | cons i t ih =>
    intro hp
    rw [List.pairwise_cons] at hp
    obtain ⟨hhead, htail⟩ := hp
    cases hse : sweepEntry env localIp i with
    | none => simpa [List.filterMap_cons, hse] using ih htail
    | some d =>
      rw [List.filterMap_cons, hse]
      rw [List.map_cons, List.nodup_cons]
      refine ⟨?_, ih htail⟩
      intro hmem
      rw [List.mem_map] at hmem
      obtain ⟨d', hd', hip⟩ := hmem
      rw [List.mem_filterMap] at hd'
      obtain ⟨j, hj, hse'⟩ := hd'
      have h1 := (sweepEntry_some hse).1
      have h2 := (sweepEntry_some hse').1
      exact hhead j hj (by rw [← h1, ← h2, hip])

/-- C5: the sweep's result contains no two entries with the same address:
    each loop index contributes at most one entry carrying its own candidate
    address, and the 254 candidate addresses are pairwise distinct. -/
theorem claim5_no_duplicate_addresses (env : AdbEnv) (localIp : String) :
    ((discoverDevices env localIp).map DiscoveredDevice.ip).Nodup := by
  have hn : (List.range' 1 254).Nodup := List.nodup_range' 1 254
  have hpair : (List.range' 1 254).Pairwise
      (fun i j => candIp localIp i ≠ candIp localIp j) :=
    List.Pairwise.imp_of_mem
      (fun hi hj hne heq => hne (candIp_inj hi hj heq)) hn
  exact sweep_filterMap_ip_nodup env localIp _ hpair

theorem mkDeviceInfo_id (env : AdbEnv) (id status : String) :
    (mkDeviceInfo env id status).id = id := by
  unfold mkDeviceInfo
  repeat' split <;> try rfl

theorem getConnectedDevices_ids (env : AdbEnv) (stdout : String)
    (h : env.adbDevicesOut = some stdout) :
    (getConnectedDevices env).map DeviceInfo.id = listingTokens stdout := by
  unfold getConnectedDevices listingTokens
  rw [h]
  rw [List.map_filterMap]
  have hline : ∀ line : List Char,
      ((matchDeviceLine line).map fun p => mkDeviceInfo env p.1 p.2).map DeviceInfo.id
        = (matchDeviceLine line).map (·.1) := by
    intro line
    cases matchDeviceLine line with
    | none => rfl
    | some p => simp [mkDeviceInfo_id]
  simp only [Option.map_map] at hline ⊢
  simp only [hline]

/-- C9 counterexample: the parser does not enforce identifier uniqueness: a
    raw listing that repeats a line yields two entries with the same id. -/
theorem claim9_duplicate_ids_counterexample :
    envDupListing.adbDevicesOut =
        some "List of devices attached\nfoo\tdevice\nfoo\tdevice\n" ∧
      ¬ ((getConnectedDevices envDupListing).map DeviceInfo.id).Nodup := by
  refine ⟨rfl, ?_⟩
  decide

/-- C9 amended: the parsed identifiers are exactly the first captured tokens
    of the matching lines of the raw listing; they are unique in a snapshot
    whenever those tokens are pairwise distinct (which the external bridge
    tool guarantees for real listings, but the parser itself does not
    enforce for arbitrary input). -/
theorem claim9_ids_unique_of_tokens_unique (env : AdbEnv) (stdout : String)
    (h : env.adbDevicesOut = some stdout) (hn : (listingTokens stdout).Nodup) :
    ((getConnectedDevices env).map DeviceInfo.id).Nodup := by
  rw [getConnectedDevices_ids env stdout h]
  exact hn

/-- C9 amended witness: a listing with a single device line parses to unique
    identifiers. -/
theorem claim9_ids_unique_of_tokens_unique_witness :
    ((getConnectedDevices envOneConnected).map DeviceInfo.id).Nodup :=
  claim9_ids_unique_of_tokens_unique envOneConnected
    "List of devices attached\n10.0.0.7:5555\tdevice\n" rfl (by decide)

/-- C6: on an Android-11+ device, when the Wi-Fi route-table query returns a
    string that trims to empty, `enableWirelessDebugging` reports failure
    (returns `false`), leaves the in-memory config unchanged, and never calls
    `saveConfig`, so nothing is appended to the preference store. -/
theorem claim6_empty_wifi_ip_no_append (env : AdbEnv) (deviceId : String)
    (config : ConfigType) (dev : DeviceInfo)
    (hfind : (getConnectedDevices env).find? (fun d => d.id = deviceId) = some dev)
    (hw : ¬ dev.wireless = some true)
    (v : String) (hv : env.getprop deviceId "ro.build.version.release" = some v)
    (h11 : versionAtLeast11 v = true)
    (out : String) (hout : env.shellIpRoute deviceId = some out)
    (hempty : jsTrim out = "") :
    enableWirelessDebugging env deviceId config = ⟨false, config, false⟩ := by
  unfold enableWirelessDebugging
  rw [hfind]
  simp only [if_neg hw, hv, h11, if_true, hout, hempty, if_pos rfl]

/-- C6 witness: device `ABC123` on Android 12 with a whitespace-only
    route-table answer: the command fails and the one known device already
    stored stays untouched. -/
theorem claim6_empty_wifi_ip_no_append_witness :
    enableWirelessDebugging envUsbNoWifi "ABC123"
        ⟨some [⟨"OLD", "10.0.0.2:5555", "Pixel", "2025-12-31T00:00:00.000Z"⟩]⟩ =
      ⟨false, ⟨some [⟨"OLD", "10.0.0.2:5555", "Pixel", "2025-12-31T00:00:00.000Z"⟩]⟩,
        false⟩ :=
  claim6_empty_wifi_ip_no_append envUsbNoWifi "ABC123" _
    (mkDeviceInfo envUsbNoWifi "ABC123" "device") (by decide) (by decide)
    "12" rfl (by decide) "\n" rfl (by decide)

theorem jsonToKnownDevice_knownDeviceToJson (d : KnownDevice) :
    jsonToKnownDevice (knownDeviceToJson d) = some d := rfl

theorem filterMap_decode_encode (l : List KnownDevice) :
    List.filterMap (jsonToKnownDevice ∘ knownDeviceToJson) l = l := by
  induction l with
  | nil => rfl
  | cons d t ih =>
    simp [List.filterMap_cons, Function.comp, jsonToKnownDevice_knownDeviceToJson, ih]

/-- C7: saving any list of known-device records with `saveConfig` and
    reloading the written JSON yields the same records, field for field. -/
theorem claim7_config_roundtrip (l : List KnownDevice) :
    loadConfig (some (some (saveConfig ⟨some l⟩))) = ⟨some l⟩ := by
  show jsonToConfig (configToJson ⟨some l⟩) = ⟨some l⟩
  simp [configToJson, jsonToConfig, lookupField, Function.comp, filterMap_decode_encode]

/-- C8: a missing preference file and a file whose contents fail to parse
    both load to the initial `{}` config, whose known-devices list reads as
    empty; `loadConfig` is total, so no fatal error is raised. -/
theorem claim8_load_missing_or_corrupt :
    loadConfig none = ({} : ConfigType) ∧
      loadConfig (some none) = ({} : ConfigType) ∧
      (({} : ConfigType).knownDevices.getD [] = ([] : List KnownDevice)) :=
  ⟨rfl, rfl, rfl⟩

end WirelessDev
